import Mathlib

/-!
Verification development for the mock-lsp-server repository (Go).

The definitions below are a shallow embedding of the `lsp` package server
(`MockLSPServer`, its `Handle` dispatcher and the per-method handlers) and of
the error taxonomy in `lsp/errors.go`.  Go maps are modelled as association
lists over `String` keys, pointers to `protocol.TextDocumentItem` as plain
values (in-place mutation through a stored pointer becomes a keyed update of
the association list), and every observable action of a handler (transport
sends, log lines, calls into the error handler, process exit) is recorded in
an explicit effect trace.  A handler invocation may perform at most one
transport send on any control-flow path, so the outcome of that send is
modelled by a single `Option String` argument: `none` means the send
succeeded, `some e` means it failed with error text `e`.
-/

namespace MockLsp

/-- LSP `Position` (fields `Line`, `Character` of `protocol.Position`).  The
Go fields are fixed-width unsigned 32-bit integers; they are modelled as
`Nat` holding the decoded value (any position a client can send decodes to a
value below `2^32`), and the arithmetic the handlers perform on them wraps
modulo `2^32` exactly as the Go addition does (see `uint32Mod` and
`handleHover`). -/
structure Position where
  line : Nat
  character : Nat
deriving DecidableEq

/-- The modulus of Go unsigned 32-bit arithmetic: `2^32`. -/
def uint32Mod : Nat := 4294967296

/-- LSP `Range` (`protocol.Range`); the source field `End` is a Lean keyword,
so it is rendered `end_`. -/
structure Range where
  start : Position
  end_ : Position
deriving DecidableEq

/-- `protocol.TextDocumentItem`: the per-document record held by the store. -/
structure TextDocumentItem where
  uri : String
  languageId : String
  version : Int
  text : String
deriving DecidableEq

/-- `protocol.Diagnostic` as built by `sendMockDiagnostics`.  Severity is the
numeric LSP code (Warning = 2, Information = 3); the Go field is a pointer,
hence `Option`. -/
structure Diagnostic where
  range : Range
  severity : Option Nat
  message : String
  source : String
deriving DecidableEq

/-- `protocol.PublishDiagnosticsParams`. -/
structure PublishDiagnosticsParams where
  uri : String
  diagnostics : List Diagnostic
deriving DecidableEq

/-- `protocol.MarkupContent`. -/
structure MarkupContent where
  kind : String
  value : String
deriving DecidableEq

/-- Documentation of a completion item: the Go type is the union
`Or2[string, protocol.MarkupContent]`; both variants occur in the source. -/
inductive Documentation where
  | plain (s : String)
  | markup (m : MarkupContent)
deriving DecidableEq

/-- `protocol.CompletionItem` restricted to the fields the server populates.
`kind` carries the numeric LSP `CompletionItemKind` (Function = 3,
Variable = 6, Class = 7); `insertText` is a plain Go string whose zero value
is `""` when the handler leaves it unset. -/
structure CompletionItem where
  label : String
  kind : Option Nat
  detail : String
  documentation : Option Documentation
  insertText : String
deriving DecidableEq

/-- `protocol.CompletionList`. -/
structure CompletionList where
  isIncomplete : Bool
  items : List CompletionItem
deriving DecidableEq

/-- Hover contents: the Go type is the union
`Or3[MarkupContent, MarkedString, []MarkedString]`; the server only ever
constructs the `MarkupContent` variant, which is the only one embedded. -/
inductive HoverContents where
  | markup (m : MarkupContent)
deriving DecidableEq

/-- `protocol.Hover` (the Go `Range` field is a pointer, hence `Option`). -/
structure Hover where
  contents : HoverContents
  range : Option Range
deriving DecidableEq

/-- `protocol.Location`. -/
structure Location where
  uri : String
  range : Range
deriving DecidableEq

/-- `protocol.DocumentSymbol` with its recursive `Children` list; `kind` is
the numeric LSP `SymbolKind` (Class = 5, Method = 6). -/
inductive DocumentSymbol where
  | mk (name : String) (kind : Nat) (detail : String)
      (range : Range) (selectionRange : Range)
      (children : List DocumentSymbol)

/-- `protocol.CompletionOptions` (only `TriggerCharacters` is populated). -/
structure CompletionOptions where
  triggerCharacters : List String
deriving DecidableEq

/-- The capabilities advertised by `handleInitialize`.  `textDocumentSync`
holds the numeric `TextDocumentSyncKind` stored in the `Or2` union; the four
boolean providers are the `Or2[bool, …]` unions with a `bool` value. -/
structure ServerCapabilities where
  textDocumentSync : Nat
  completionProvider : CompletionOptions
  hoverProvider : Bool
  definitionProvider : Bool
  referencesProvider : Bool
  documentSymbolProvider : Bool
deriving DecidableEq

/-- `protocol.ServerInfo`. -/
structure ServerInfo where
  name : String
  version : String
deriving DecidableEq

/-- `protocol.InitializeResult`. -/
structure InitializeResult where
  capabilities : ServerCapabilities
  serverInfo : ServerInfo
deriving DecidableEq

/-- A decoded content change.  The Go value is the union
`Or2[TextDocumentContentChangePartial, TextDocumentContentChangeWholeDocument]`
that `handleTextDocumentDidChange` inspects by reflection; `RangeChange`
embeds the `Partial` variant (range-based patch) and `WholeDocumentChange`
the whole-document replacement variant. -/
inductive ContentChange where
  | RangeChange (range : Range) (text : String)
  | WholeDocumentChange (text : String)
deriving DecidableEq

/-! ### The document store

`MockLSPServer.documents` is a Go `map[string]*protocol.TextDocumentItem`.
It is modelled as an association list: `storeInsert` is map assignment
(overwrite-or-add), `storeErase` is `delete`, `storeUpdate` is mutation of
the value already stored under a key (the handlers mutate the document
record through the stored pointer), and `storeLookup` is map indexing. -/

/-- The state of `MockLSPServer.documents`. -/
abbrev Store := List (String × TextDocumentItem)

/-- Go map indexing `s.documents[uri]` (with its `exists` flag as `Option`). -/
def storeLookup : Store → String → Option TextDocumentItem
  | [], _ => Option.none
  | (k, v) :: rest, key => if k = key then Option.some v else storeLookup rest key

/-- Go `delete(s.documents, uri)`. -/
def storeErase (s : Store) (key : String) : Store :=
  s.filter (fun p => p.1 ≠ key)

/-- Go map assignment `s.documents[uri] = doc`: overwrites an existing entry
and otherwise adds one (Go maps are unordered, so the position of the entry
carries no meaning). -/
def storeInsert (s : Store) (key : String) (doc : TextDocumentItem) : Store :=
  storeErase s key ++ [(key, doc)]

/-- In-place mutation of the document stored under `key` (the handlers write
through the `*TextDocumentItem` pointer held in the map). -/
def storeUpdate (s : Store) (key : String) (doc : TextDocumentItem) : Store :=
  s.map (fun p => if p.1 = key then (p.1, doc) else p)


/-! ### Error taxonomy (`lsp/errors.go`) -/

/-- `ErrorCodeMethodNotFound` from `lsp/errors.go`. -/
def ErrorCodeMethodNotFound : Int := -32601

/-- `ErrorCodeInvalidParams` from `lsp/errors.go`. -/
def ErrorCodeInvalidParams : Int := -32602

/-- `ErrorCodeInternalError` from `lsp/errors.go`. -/
def ErrorCodeInternalError : Int := -32603

/-- `LSPError` from `lsp/errors.go`: code, message, optional cause and a
context map built by `WithContext`.  The cause is the text of the underlying
Go error; context values are rendered as strings (Go stores `interface` values
that are only ever formatted into log output). -/
structure LSPError where
  code : Int
  message : String
  cause : Option String
  context : List (String × String)
deriving DecidableEq

/-- `NewMethodNotFoundError` from `lsp/errors.go`: a `MethodNotFound` error
carrying the method name both in the message and in the context. -/
def NewMethodNotFoundError (method : String) : LSPError :=
  { code := ErrorCodeMethodNotFound
    message := "method not found: " ++ method
    cause := Option.none
    context := [("method", method)] }

/-- `NewInvalidParamsError` from `lsp/errors.go`. -/
def NewInvalidParamsError (message : String) (cause : String) : LSPError :=
  { code := ErrorCodeInvalidParams
    message := message
    cause := Option.some cause
    context := [] }

/-- `ErrorHandler.WrapError` from `lsp/errors.go`: wraps a lower-level error
into a classified `LSPError` with the given context annotations. -/
def WrapError (err : String) (code : Int) (message : String)
    (context : List (String × String)) : LSPError :=
  { code := code
    message := message
    cause := Option.some err
    context := context }

/-- The argument of `ErrorHandler.HandleError`: either a classified
`*LSPError` or a generic Go error (its text). -/
inductive ErrValue where
  | lspError (e : LSPError)
  | goError (message : String)
deriving DecidableEq

/-! ### Observable effects

Every externally observable action of a handler is recorded in order:
transport sends (`reply` / `replyWithError` / `notify` record the *attempt*,
whose success or failure is the `Option String` transport argument), log
lines (kept as the Go format string plus its rendered arguments), calls into
`ErrorHandler.HandleError`, and process termination. -/

/-- Result payload of a successful reply, one variant per request handler. -/
inductive ReplyResult where
  | initializeResult (r : InitializeResult)
  | completionList (l : CompletionList)
  | hover (h : Hover)
  | locations (ls : List Location)
  | documentSymbols (ds : List DocumentSymbol)
  | nullResult

/-- One observable action of a handler. -/
inductive Effect where
  | reply (id : Int) (result : ReplyResult)
  | replyWithError (id : Int) (code : Int) (message : String)
  | notify (method : String) (params : PublishDiagnosticsParams)
  | logMsg (format : String) (args : List String)
  | handleErrorCall (err : ErrValue) (operation : String)
  | exitProcess (code : Nat)

/-- Does the effect route an error to `ErrorHandler.HandleError`? -/
def isHandleErrorEffect : Effect → Bool
  | Effect.handleErrorCall _ _ => true
  | _ => false

/-- Is the effect a successful-reply send attempt? -/
def isReplyEffect : Effect → Bool
  | Effect.reply _ _ => true
  | _ => false

/-- Is the effect a notification send attempt? -/
def isNotifyEffect : Effect → Bool
  | Effect.notify _ _ => true
  | _ => false

/-- Is the effect any transport send attempt (reply, error reply, notify)? -/
def isSendEffect : Effect → Bool
  | Effect.reply _ _ => true
  | Effect.replyWithError _ _ _ => true
  | Effect.notify _ _ => true
  | _ => false

/-! ### Decoded requests

The Go handlers receive raw JSON and `json.Unmarshal` it into per-method
parameter structs; a message is modelled with its parameters already decoded
into the shape the target handler expects, and `malformed err` stands for a
body on which that unmarshal fails with error text `err`. -/

/-- Decoded `req.Params`, one constructor per parameter struct. -/
inductive Params where
  | initializeParams (rootUri : Option String)
  | didOpenParams (textDocument : TextDocumentItem)
  | didChangeParams (uri : String) (version : Int)
      (contentChanges : List ContentChange)
  | didSaveParams (uri : String)
  | didCloseParams (uri : String)
  | completionParams (uri : String) (position : Position)
  | hoverParams (uri : String) (position : Position)
  | definitionParams (uri : String) (position : Position)
  | referenceParams (uri : String) (position : Position)
  | documentSymbolParams (uri : String)
  | noParams
  | malformed (err : String)

/-- A decoded `jsonrpc2.Request`: method string, numeric id (meaningful only
when `notif` is false), the notification flag `Notif`, and decoded params. -/
structure Request where
  method : String
  id : Int
  notif : Bool
  params : Params

/-- Rendering of `params.RootUri` (a possibly nil pointer) into a log line. -/
def formatRootUri : Option String → String
  | Option.some s => s
  | Option.none => "<nil>"

/-- Rendering of a `protocol.Range` into a log line. -/
def formatRange (r : Range) : String :=
  toString r.start.line ++ ":" ++ toString r.start.character ++ "-"
    ++ toString r.end_.line ++ ":" ++ toString r.end_.character

/-! ### Handlers (`lsp` package server)

Each Lean handler mirrors the Go handler of the same name.  All return the
new `documents` store paired with the effect trace; `sendResult` is the
outcome of the single transport send the handler can perform on the taken
path (`none` = success, `some e` = the send returned error `e`). -/

/-- The two fixed diagnostics built inside `sendMockDiagnostics`. -/
def mockDiagnostics : List Diagnostic :=
  [ { range := { start := { line := 1, character := 0 }
                 end_ := { line := 1, character := 10 } }
      severity := Option.some 2
      message := "This is a mock warning"
      source := "mock-lsp" }
  , { range := { start := { line := 5, character := 15 }
                 end_ := { line := 5, character := 25 } }
      severity := Option.some 3
      message := "This is mock info"
      source := "mock-lsp" } ]

/-- `sendMockDiagnostics`: one `textDocument/publishDiagnostics` notification
for `uri`; a failed send is only logged. -/
def sendMockDiagnostics (uri : String) (sendResult : Option String) :
    List Effect :=
  Effect.notify "textDocument/publishDiagnostics"
      { uri := uri, diagnostics := mockDiagnostics } ::
    (match sendResult with
     | Option.none => []
     | Option.some e =>
         [Effect.logMsg "Failed to send diagnostics notification: %v" [e]])

/-- The capability/serverInfo payload built by `handleInitialize`. -/
def mockInitializeResult : InitializeResult :=
  { capabilities :=
      { textDocumentSync := 0
        completionProvider := { triggerCharacters := [".", ":"] }
        hoverProvider := true
        definitionProvider := true
        referencesProvider := true
        documentSymbolProvider := true }
    serverInfo := { name := "Mock LSP Server", version := "1.0.0" } }

/-- `handleInitialize`: reply with the fixed capabilities; on malformed
params reply `InvalidParams` and route the parse error to the error handler;
on a reply-send failure wrap it as `InternalError` (annotated with method
and request id) and route it to the error handler. -/
def handleInitialize (docs : Store) (params : Params) (id : Int)
    (sendResult : Option String) : Store × List Effect :=
  match params with
  | Params.initializeParams rootUri =>
      (docs,
        Effect.logMsg "Initialize request from client with root URI: %+v"
            [formatRootUri rootUri] ::
          Effect.reply id (ReplyResult.initializeResult mockInitializeResult) ::
          (match sendResult with
           | Option.none => []
           | Option.some e =>
               [Effect.handleErrorCall
                 (ErrValue.lspError (WrapError e ErrorCodeInternalError
                   "Failed to send initialize response"
                   [("method", "initialize"), ("request_id", toString id)]))
                 "initialize_send_response"]))
  | _ =>
      let parseErr := match params with
        | Params.malformed e => e
        | _ => "json: cannot unmarshal params"
      let lspErr :=
        { NewInvalidParamsError "failed to parse initialize params" parseErr
            with context := [("method", "initialize")] }
      (docs,
        Effect.replyWithError id lspErr.code lspErr.message ::
          (match sendResult with
           | Option.none => []
           | Option.some e =>
               [Effect.handleErrorCall (ErrValue.goError e)
                 "initialize_send_error"]) ++
          [Effect.handleErrorCall (ErrValue.lspError lspErr)
            "initialize_parse_params"])

/-- `handleInitialized`: log-only notification handler. -/
def handleInitialized (docs : Store) : Store × List Effect :=
  (docs, [Effect.logMsg "Client initialized" []])

/-- `handleTextDocumentDidOpen`: store the document under its URI
(overwriting any previous entry) and push the mock diagnostics; malformed
params are routed to the error handler and nothing else happens. -/
def handleTextDocumentDidOpen (docs : Store) (params : Params)
    (sendResult : Option String) : Store × List Effect :=
  match params with
  | Params.didOpenParams td =>
      (storeInsert docs td.uri td,
        Effect.logMsg "Opened document: %s" [td.uri] ::
          sendMockDiagnostics td.uri sendResult)
  | _ =>
      let parseErr := match params with
        | Params.malformed e => e
        | _ => "json: cannot unmarshal params"
      let lspErr :=
        { NewInvalidParamsError "failed to parse textDocument/didOpen params"
            parseErr with context := [("method", "textDocument/didOpen")] }
      (docs,
        [Effect.handleErrorCall (ErrValue.lspError lspErr)
          "didOpen_parse_params"])

/-- One step of the content-change loop in `handleTextDocumentDidChange`:
a `RangeChange` is only logged, a `WholeDocumentChange` replaces the stored
text. -/
def applyContentChange (uri : String) (acc : TextDocumentItem × List Effect)
    (change : ContentChange) : TextDocumentItem × List Effect :=
  match change with
  | ContentChange.RangeChange r t =>
      (acc.1,
        acc.2 ++
          [ Effect.logMsg "Partial document update for %s at range %v"
              [uri, formatRange r]
          , Effect.logMsg "Replacing text in range with: %q" [t] ])
  | ContentChange.WholeDocumentChange t =>
      ({ acc.1 with text := t },
        acc.2 ++ [Effect.logMsg "Full document update for %s" [uri]])

/-- `handleTextDocumentDidChange`: if the URI is absent the handler does
nothing; otherwise it unconditionally overwrites the stored version, folds
the content changes over the stored document, and pushes the mock
diagnostics. -/
def handleTextDocumentDidChange (docs : Store) (params : Params)
    (sendResult : Option String) : Store × List Effect :=
  match params with
  | Params.didChangeParams uri version changes =>
      (match storeLookup docs uri with
       | Option.some doc =>
           let doc1 := { doc with version := version }
           let final := changes.foldl (applyContentChange uri) (doc1, [])
           (storeUpdate docs uri final.1,
             final.2 ++
               Effect.logMsg "Document changed: %s (version %d)"
                 [uri, toString version] ::
               sendMockDiagnostics uri sendResult)
       | Option.none => (docs, []))
  | _ =>
      let parseErr := match params with
        | Params.malformed e => e
        | _ => "json: cannot unmarshal params"
      (docs, [Effect.logMsg "Failed to parse didChange params: %v" [parseErr]])

/-- `handleTextDocumentDidSave`: log-only; the store is never touched. -/
def handleTextDocumentDidSave (docs : Store) (params : Params) :
    Store × List Effect :=
  match params with
  | Params.didSaveParams uri =>
      (docs, [Effect.logMsg "Document saved: %s" [uri]])
  | _ =>
      let parseErr := match params with
        | Params.malformed e => e
        | _ => "json: cannot unmarshal params"
      (docs, [Effect.logMsg "Failed to parse didSave params: %v" [parseErr]])

/-- `handleTextDocumentDidClose`: delete the entry for the URI (a no-op when
absent). -/
def handleTextDocumentDidClose (docs : Store) (params : Params) :
    Store × List Effect :=
  match params with
  | Params.didCloseParams uri =>
      (storeErase docs uri, [Effect.logMsg "Closed document: %s" [uri]])
  | _ =>
      let parseErr := match params with
        | Params.malformed e => e
        | _ => "json: cannot unmarshal params"
      (docs, [Effect.logMsg "Failed to parse didClose params: %v" [parseErr]])

/-- The three fixed completion items built by `handleCompletion`. -/
def mockCompletionItems : List CompletionItem :=
  [ { label := "mockFunction"
      kind := Option.some 3
      detail := "Mock function completion"
      documentation := Option.some (Documentation.markup
        { kind := "markdown", value := "This is a mock function completion" })
      insertText := "mockFunction()" }
  , { label := "mockVariable"
      kind := Option.some 6
      detail := "Mock variable completion"
      documentation := Option.some (Documentation.plain
        "This is a mock variable")
      insertText := "" }
  , { label := "mockClass"
      kind := Option.some 7
      detail := "Mock class completion"
      documentation := Option.none
      insertText := "MockClass" } ]

/-- The completion list replied by `handleCompletion`. -/
def mockCompletionList : CompletionList :=
  { isIncomplete := false, items := mockCompletionItems }

/-- `handleCompletion`: always reply with the fixed three-item list; a
reply-send failure is only logged (it is not routed to the error handler). -/
def handleCompletion (docs : Store) (params : Params) (id : Int)
    (sendResult : Option String) : Store × List Effect :=
  match params with
  | Params.completionParams _ _ =>
      (docs,
        Effect.reply id (ReplyResult.completionList mockCompletionList) ::
          (match sendResult with
           | Option.none => []
           | Option.some e =>
               [Effect.logMsg "Failed to send completion response: %v" [e]]))
  | _ =>
      (docs,
        Effect.replyWithError id ErrorCodeInvalidParams
            "failed to parse completion params" ::
          (match sendResult with
           | Option.none => []
           | Option.some e =>
               [Effect.logMsg "Failed to send completion error: %v" [e]]))

/-- `handleHover`: reply with the fixed markdown block and a range starting
at the requested position and ending ten characters later on the same line —
the Go `params.Position.Character + 10` is unsigned 32-bit addition, so the
end character wraps modulo `2^32`; a reply-send failure is only logged. -/
def handleHover (docs : Store) (params : Params) (id : Int)
    (sendResult : Option String) : Store × List Effect :=
  match params with
  | Params.hoverParams _ pos =>
      let result : Hover :=
        { contents := HoverContents.markup
            { kind := "markdown"
              value :=
                "**Mock Hover Information**\n\nThis is mock hover content for testing purposes." }
          range := Option.some
            { start := pos
              end_ := { line := pos.line
                        character := (pos.character + 10) % uint32Mod } } }
      (docs,
        Effect.reply id (ReplyResult.hover result) ::
          (match sendResult with
           | Option.none => []
           | Option.some e =>
               [Effect.logMsg "Failed to send hover response: %v" [e]]))
  | _ =>
      (docs,
        Effect.replyWithError id ErrorCodeInvalidParams
            "failed to parse hover params" ::
          (match sendResult with
           | Option.none => []
           | Option.some e =>
               [Effect.logMsg "Failed to send hover error: %v" [e]]))

/-- `handleDefinition`: reply with one fixed location at the request URI. -/
def handleDefinition (docs : Store) (params : Params) (id : Int)
    (sendResult : Option String) : Store × List Effect :=
  match params with
  | Params.definitionParams uri _ =>
      let result : List Location :=
        [ { uri := uri
            range := { start := { line := 0, character := 0 }
                       end_ := { line := 0, character := 10 } } } ]
      (docs,
        Effect.reply id (ReplyResult.locations result) ::
          (match sendResult with
           | Option.none => []
           | Option.some e =>
               [Effect.logMsg "Failed to send definition response: %v" [e]]))
  | _ =>
      (docs,
        Effect.replyWithError id ErrorCodeInvalidParams
            "failed to parse definition params" ::
          (match sendResult with
           | Option.none => []
           | Option.some e =>
               [Effect.logMsg "Failed to send definition error: %v" [e]]))

/-- `handleReferences`: reply with the two fixed locations at the request
URI. -/
def handleReferences (docs : Store) (params : Params) (id : Int)
    (sendResult : Option String) : Store × List Effect :=
  match params with
  | Params.referenceParams uri _ =>
      let result : List Location :=
        [ { uri := uri
            range := { start := { line := 5, character := 10 }
                       end_ := { line := 5, character := 20 } } }
        , { uri := uri
            range := { start := { line := 10, character := 5 }
                       end_ := { line := 10, character := 15 } } } ]
      (docs,
        Effect.reply id (ReplyResult.locations result) ::
          (match sendResult with
           | Option.none => []
           | Option.some e =>
               [Effect.logMsg "Failed to send references response: %v" [e]]))
  | _ =>
      (docs,
        Effect.replyWithError id ErrorCodeInvalidParams
            "failed to parse references params" ::
          (match sendResult with
           | Option.none => []
           | Option.some e =>
               [Effect.logMsg "Failed to send references error: %v" [e]]))

/-- The fixed symbol tree replied by `handleDocumentSymbol`. -/
def mockDocumentSymbols : List DocumentSymbol :=
  [ DocumentSymbol.mk "MockClass" 5 "Mock class symbol"
      { start := { line := 0, character := 0 }
        end_ := { line := 20, character := 0 } }
      { start := { line := 0, character := 6 }
        end_ := { line := 0, character := 15 } }
      [ DocumentSymbol.mk "mockMethod" 6 ""
          { start := { line := 5, character := 4 }
            end_ := { line := 10, character := 4 } }
          { start := { line := 5, character := 4 }
            end_ := { line := 5, character := 14 } }
          [] ] ]

/-- `handleDocumentSymbol`: reply with the fixed symbol tree. -/
def handleDocumentSymbol (docs : Store) (params : Params) (id : Int)
    (sendResult : Option String) : Store × List Effect :=
  match params with
  | Params.documentSymbolParams _ =>
      (docs,
        Effect.reply id (ReplyResult.documentSymbols mockDocumentSymbols) ::
          (match sendResult with
           | Option.none => []
           | Option.some e =>
               [Effect.logMsg "Failed to send document symbol response: %v"
                 [e]]))
  | _ =>
      (docs,
        Effect.replyWithError id ErrorCodeInvalidParams
            "failed to parse document symbol params" ::
          (match sendResult with
           | Option.none => []
           | Option.some e =>
               [Effect.logMsg "Failed to send document symbol error: %v" [e]]))

/-- `handleShutdown`: reply with a null result; does not terminate. -/
def handleShutdown (docs : Store) (id : Int) (sendResult : Option String) :
    Store × List Effect :=
  (docs,
    Effect.logMsg "Shutdown request received" [] ::
      Effect.reply id ReplyResult.nullResult ::
      (match sendResult with
       | Option.none => []
       | Option.some e =>
           [Effect.logMsg "Failed to send shutdown response: %v" [e]]))

/-- `handleExit`: log and terminate the process with code 0. -/
def handleExit (docs : Store) : Store × List Effect :=
  (docs, [Effect.logMsg "Exit notification received" [], Effect.exitProcess 0])

/-- The fixed method table of the `Handle` switch. -/
def supportedMethods : List String :=
  [ "initialize", "initialized", "textDocument/didOpen",
    "textDocument/didChange", "textDocument/didSave", "textDocument/didClose",
    "textDocument/completion", "textDocument/hover", "textDocument/definition",
    "textDocument/references", "textDocument/documentSymbol", "shutdown",
    "exit" ]

/-- `Handle`: the dispatcher switch over `req.Method`.  The default branch
mirrors the source exactly: it builds a `MethodNotFound` error and calls
`conn.ReplyWithError` with `req.ID` *unconditionally* — the Go code never
consults `req.Notif`, so the error reply is also attempted for
notifications; a failure of that send is wrapped as `InternalError` and
routed to the error handler. -/
def Handle (docs : Store) (req : Request) (sendResult : Option String) :
    Store × List Effect :=
  match req.method with
  | "initialize" => handleInitialize docs req.params req.id sendResult
  | "initialized" => handleInitialized docs
  | "textDocument/didOpen" =>
      handleTextDocumentDidOpen docs req.params sendResult
  | "textDocument/didChange" =>
      handleTextDocumentDidChange docs req.params sendResult
  | "textDocument/didSave" => handleTextDocumentDidSave docs req.params
  | "textDocument/didClose" => handleTextDocumentDidClose docs req.params
  | "textDocument/completion" =>
      handleCompletion docs req.params req.id sendResult
  | "textDocument/hover" => handleHover docs req.params req.id sendResult
  | "textDocument/definition" =>
      handleDefinition docs req.params req.id sendResult
  | "textDocument/references" =>
      handleReferences docs req.params req.id sendResult
  | "textDocument/documentSymbol" =>
      handleDocumentSymbol docs req.params req.id sendResult
  | "shutdown" => handleShutdown docs req.id sendResult
  | "exit" => handleExit docs
  | _ =>
      let lspErr := NewMethodNotFoundError req.method
      (docs,
        Effect.replyWithError req.id lspErr.code lspErr.message ::
          (match sendResult with
           | Option.none => []
           | Option.some e =>
               [Effect.handleErrorCall
                 (ErrValue.lspError (WrapError e ErrorCodeInternalError
                   "Failed to send method not found error"
                   [("method", req.method), ("request_id", toString req.id)]))
                 "handle_unsupported_method"]))

/-- The effect of an ordered sequence of content changes on stored text,
as the spec words it for `ApplyChange`: a `WholeDocumentChange` replaces the
text entirely, a `RangeChange` leaves the stored text unchanged.  This is the
spec-side description against which the handler's fold is compared. -/
def applyChangesSpec (text : String) : List ContentChange → String
  | [] => text
  | ContentChange.RangeChange _ _ :: rest => applyChangesSpec text rest
  | ContentChange.WholeDocumentChange t :: rest => applyChangesSpec t rest

/-- A sample stored document used by concrete witnesses. -/
def sampleDoc : TextDocumentItem :=
  { uri := "file:///a.go", languageId := "go", version := 1
    text := "package main" }

/-- A second sample document for the same URI with different content. -/
def sampleDoc2 : TextDocumentItem :=
  { uri := "file:///a.go", languageId := "go", version := 2
    text := "package main2" }

/-! ### Store lemmas -/

theorem storeLookup_erase_ne (s : Store) (k key : String) (h : k ≠ key) :
    storeLookup (storeErase s key) k = storeLookup s k := by
  induction s with
  | nil => rfl
  | cons p rest ih =>
      by_cases hp : p.1 = key
      · simp [storeErase, storeLookup, hp, List.filter] at *
        rw [if_neg (by simpa [hp] using (Ne.symm h))] at *
        exact ih
      · cases p with
      | mk k1 v1 =>
        simp only [storeErase, List.filter] at *
        simp only [hp, decide_not, decide_eq_true_eq] at *
        by_cases hk : k1 = k
        · simp [storeLookup, hk, hp, ih]
        · simp [storeLookup, hk, hp, ih]

theorem storeLookup_append (s t : Store) (k : String) :
    storeLookup (s ++ t) k =
      (match storeLookup s k with
       | Option.some v => Option.some v
       | Option.none => storeLookup t k) := by
  induction s with
  | nil => rfl
  | cons p rest ih =>
      cases p with
      | mk k1 v1 =>
        by_cases hk : k1 = k
        · simp [storeLookup, hk]
        · simp [storeLookup, hk, ih]

theorem storeLookup_insert_ne (s : Store) (key k : String)
    (doc : TextDocumentItem) (h : k ≠ key) :
    storeLookup (storeInsert s key doc) k = storeLookup s k := by
  rw [storeInsert, storeLookup_append, storeLookup_erase_ne s k key h]
  cases hs : storeLookup s k with
  | some v => rfl
  | none =>
      simp only [storeLookup, if_neg (fun e => h (Eq.symm e))]

theorem storeLookup_update_ne (s : Store) (key k : String)
    (doc : TextDocumentItem) (h : k ≠ key) :
    storeLookup (storeUpdate s key doc) k = storeLookup s k := by
  induction s with
  | nil => rfl
  | cons p rest ih =>
      cases p with
      | mk k1 v1 =>
        simp only [storeUpdate, List.map_cons]
        by_cases hp : k1 = key
        · rw [if_pos hp]
          have hk : ¬k1 = k := by
            rw [hp]
            exact Ne.symm h
          simp only [storeLookup, if_neg hk]
          exact ih
        · rw [if_neg hp]
          by_cases hk : k1 = k
          · simp [storeLookup, hk]
          · simp only [storeLookup, if_neg hk]
            exact ih

theorem storeLookup_update_self (s : Store) (key : String)
    (doc newDoc : TextDocumentItem) (h : storeLookup s key = Option.some doc) :
    storeLookup (storeUpdate s key newDoc) key = Option.some newDoc := by
  induction s with
  | nil => simp [storeLookup] at h
  | cons p rest ih =>
      cases p with
      | mk k1 v1 =>
        by_cases hp : k1 = key
        · subst hp
          have hmap : storeUpdate ((k1, v1) :: rest) k1 newDoc
              = (k1, newDoc) :: storeUpdate rest k1 newDoc := by
            simp [storeUpdate]
          rw [hmap]
          simp [storeLookup]
        · simp only [storeUpdate, List.map_cons]
          rw [if_neg hp]
          simp only [storeLookup, if_neg hp] at h ⊢
          exact ih h

theorem storeErase_of_lookup_none (s : Store) (key : String)
    (h : storeLookup s key = Option.none) : storeErase s key = s := by
  induction s with
  | nil => rfl
  | cons p rest ih =>
      cases p with
      | mk k1 v1 =>
        by_cases hp : k1 = key
        · simp [storeLookup, hp] at h
        · simp only [storeLookup, if_neg hp] at h
          simp [storeErase, List.filter, hp] at *
          exact ih h

theorem storeErase_append (s t : Store) (key : String) :
    storeErase (s ++ t) key = storeErase s key ++ storeErase t key := by
  simp [storeErase, List.filter_append]

/-! ### Claims -/

/-- C1: the claim says an unknown-method notification (no id) is logged and
gets no reply.  The `Handle` default branch calls `conn.ReplyWithError`
unconditionally and never consults `req.Notif`, so the code sends a
`MethodNotFound` error reply even for a notification and logs nothing.
Evaluating the dispatcher at the failing input — an unknown-method message
with `notif = true` — shows the store untouched and the trace consisting of
exactly the error-reply attempt, with no log effect. -/
theorem C1_unmatched_notification_gets_reply :
    Handle [] { method := "workspace/unknownMethod", id := 0, notif := true,
                params := Params.noParams } Option.none
      = ([], [Effect.replyWithError 0 ErrorCodeMethodNotFound
          "method not found: workspace/unknownMethod"]) := rfl

/-- C2 (counterexample): the claim extends the open-then-close size identity
to stores in which the URI is already open.  Starting from a store that
already holds `file:///a.go` (size 1), a `didOpen` for that URI overwrites
the entry (size still 1) and the following `didClose` deletes it, leaving
size 0 ≠ 1. -/
theorem C2_counterexample :
    ([("file:///a.go", sampleDoc)] : Store).length = 1 ∧
      ((handleTextDocumentDidClose
          (handleTextDocumentDidOpen [("file:///a.go", sampleDoc)]
            (Params.didOpenParams sampleDoc2) Option.none).1
          (Params.didCloseParams "file:///a.go")).1).length = 0 := by
  constructor
  · rfl
  · rfl

/-- C2 (amended): for a URI not already present in the store, a valid
`didOpen` followed by a `didClose` on that URI returns the store to its
previous size. -/
theorem C2_open_close_restores_size (docs : Store) (td : TextDocumentItem)
    (sres : Option String) (h : storeLookup docs td.uri = Option.none) :
    ((handleTextDocumentDidClose
        (handleTextDocumentDidOpen docs (Params.didOpenParams td) sres).1
        (Params.didCloseParams td.uri)).1).length = docs.length := by
  simp only [handleTextDocumentDidOpen, handleTextDocumentDidClose]
  rw [storeInsert, storeErase_of_lookup_none docs td.uri h, storeErase_append,
    storeErase_of_lookup_none docs td.uri h]
  simp [storeErase]

/-- Witness for C2: instantiating the open/close size identity on the empty
store. -/
theorem C2_open_close_restores_size_witness :
    storeLookup [] sampleDoc2.uri = Option.none ∧
      ((handleTextDocumentDidClose
          (handleTextDocumentDidOpen [] (Params.didOpenParams sampleDoc2)
            Option.none).1
          (Params.didCloseParams sampleDoc2.uri)).1).length
        = ([] : Store).length :=
  ⟨rfl, C2_open_close_restores_size [] sampleDoc2 Option.none rfl⟩

theorem foldl_applyContentChange_fst (uri : String)
    (changes : List ContentChange) (d : TextDocumentItem)
    (effs : List Effect) :
    (changes.foldl (applyContentChange uri) (d, effs)).1
      = { d with text := applyChangesSpec d.text changes } := by
  induction changes generalizing d effs with
  | nil => rfl
  | cons c rest ih =>
      cases c with
      | RangeChange r t =>
          rw [List.foldl_cons]
          exact ih d _
      | WholeDocumentChange t =>
          rw [List.foldl_cons]
          exact ih { d with text := t } _

/-- C3: a `didChange` on a URI present in the store overwrites the stored
version unconditionally with the incoming one, and applies the content
changes in sequence — a whole-document change replaces the text entirely, a
range change leaves it unchanged (`applyChangesSpec`); all other fields of
the entry are preserved. -/
theorem C3_didChange_version_and_text (docs : Store) (uri : String)
    (version : Int) (changes : List ContentChange) (sres : Option String)
    (d : TextDocumentItem) (h : storeLookup docs uri = Option.some d) :
    storeLookup
        (handleTextDocumentDidChange docs
          (Params.didChangeParams uri version changes) sres).1 uri
      = Option.some { uri := d.uri, languageId := d.languageId,
                      version := version,
                      text := applyChangesSpec d.text changes } := by
  simp only [handleTextDocumentDidChange]
  rw [h]
  dsimp only
  rw [foldl_applyContentChange_fst]
  exact storeLookup_update_self docs uri d _ h

/-- Witness for C3: a whole-document change followed by a range change on a
one-entry store; the text is replaced by the whole-document change only and
the version becomes the incoming 5, not the stored 1. -/
theorem C3_didChange_version_and_text_witness :
    storeLookup [("file:///a.go", sampleDoc)] "file:///a.go"
        = Option.some sampleDoc
    ∧ storeLookup
        (handleTextDocumentDidChange [("file:///a.go", sampleDoc)]
          (Params.didChangeParams "file:///a.go" 5
            [ ContentChange.WholeDocumentChange "package rewritten"
            , ContentChange.RangeChange
                { start := { line := 0, character := 0 }
                  end_ := { line := 0, character := 2 } } "xx" ])
          Option.none).1 "file:///a.go"
      = Option.some { uri := "file:///a.go", languageId := "go", version := 5,
                      text := "package rewritten" } :=
  ⟨rfl,
    C3_didChange_version_and_text [("file:///a.go", sampleDoc)] "file:///a.go"
      5
      [ ContentChange.WholeDocumentChange "package rewritten"
      , ContentChange.RangeChange
          { start := { line := 0, character := 0 }
            end_ := { line := 0, character := 2 } } "xx" ]
      Option.none sampleDoc rfl⟩

/-- C4: a `didChange` whose URI is absent from the store is a complete
no-op — the pair returned is the unchanged store with an empty effect
trace, so no entry changes, no error is produced and no diagnostics
notification is pushed. -/
theorem C4_didChange_absent_noop (docs : Store) (uri : String)
    (version : Int) (changes : List ContentChange) (sres : Option String)
    (h : storeLookup docs uri = Option.none) :
    handleTextDocumentDidChange docs
        (Params.didChangeParams uri version changes) sres = (docs, []) := by
  simp only [handleTextDocumentDidChange]
  rw [h]

/-- Witness for C4: a `didChange` for an unopened URI on the empty store. -/
theorem C4_didChange_absent_noop_witness :
    storeLookup [] "file:///x.go" = Option.none
    ∧ handleTextDocumentDidChange []
        (Params.didChangeParams "file:///x.go" 3
          [ContentChange.WholeDocumentChange "text"]) Option.none
      = ([], []) :=
  ⟨rfl,
    C4_didChange_absent_noop [] "file:///x.go" 3
      [ContentChange.WholeDocumentChange "text"] Option.none rfl⟩

/-- C5 (counterexample): the claim says every request handler routes a
reply-send failure, wrapped as `InternalError`, to `HandleError`.
`handleCompletion` does not: when its reply send fails it logs the raw
transport error through the plain logger and routes nothing to the error
handler — the full trace is the reply attempt followed by one log line, and
its `HandleError` calls are empty. -/
theorem C5_counterexample :
    (handleCompletion [] (Params.completionParams "file:///a.go"
        { line := 0, character := 0 }) 7 (Option.some "write error")).2
      = [ Effect.reply 7 (ReplyResult.completionList mockCompletionList)
        , Effect.logMsg "Failed to send completion response: %v"
            ["write error"] ]
    ∧ ((handleCompletion [] (Params.completionParams "file:///a.go"
        { line := 0, character := 0 }) 7
          (Option.some "write error")).2.filter isHandleErrorEffect) = [] :=
  ⟨rfl, rfl⟩

/-- C5 (amended): in the initialize handler a reply-send failure is wrapped
as an `InternalError` `LSPError` annotated with the method name and the
request id and routed to `HandleError` exactly once, and the reply is
attempted exactly once (never retried); the other request handlers log a
send failure directly instead of routing it to the Error Handler. -/
theorem C5_initialize_send_failure_routed (docs : Store)
    (rootUri : Option String) (id : Int) (e : String) :
    (handleInitialize docs (Params.initializeParams rootUri) id
        (Option.some e)).2.filter isHandleErrorEffect
      = [Effect.handleErrorCall
          (ErrValue.lspError
            { code := ErrorCodeInternalError
              message := "Failed to send initialize response"
              cause := Option.some e
              context := [("method", "initialize"),
                          ("request_id", toString id)] })
          "initialize_send_response"]
    ∧ (handleInitialize docs (Params.initializeParams rootUri) id
        (Option.some e)).2.filter isSendEffect
      = [Effect.reply id (ReplyResult.initializeResult mockInitializeResult)] :=
  ⟨rfl, rfl⟩

/-- C6: `textDocument/completion` always replies, for any store, position
and transport outcome, with the single fixed completion list:
`isIncomplete = false` and exactly the three items labelled `mockFunction`,
`mockVariable`, `mockClass` in that order, where the function item inserts
`mockFunction()` and the class item inserts `MockClass` (the variable item
leaves the Go `InsertText` field at its zero value `""`). -/
theorem C6_completion_fixed_items (docs : Store) (uri : String)
    (pos : Position) (id : Int) (sres : Option String) :
    (handleCompletion docs (Params.completionParams uri pos) id sres).2.filter
        isReplyEffect
      = [Effect.reply id (ReplyResult.completionList mockCompletionList)]
    ∧ mockCompletionList.isIncomplete = false
    ∧ mockCompletionList.items.map CompletionItem.label
        = ["mockFunction", "mockVariable", "mockClass"]
    ∧ mockCompletionList.items.map CompletionItem.insertText
        = ["mockFunction()", "", "MockClass"] := by
  refine ⟨?_, rfl, rfl, rfl⟩
  cases sres with
  | none => rfl
  | some e => rfl

/-- C7 (counterexample): the claim asserts `end.character` is exactly
`start.character + 10` for *every* requested character value, but
`protocol.Position.Character` is a Go unsigned 32-bit field, so the source's
`params.Position.Character + 10` wraps modulo `2^32`: at the decodable
character `4294967295` the program's hover reply ends at character `9`,
which is not `4294967295 + 10`. -/
theorem C7_counterexample :
    (handleHover [] (Params.hoverParams "file:///a.go"
        { line := 0, character := 4294967295 }) 7 Option.none).2.filter
        isReplyEffect
      = [Effect.reply 7 (ReplyResult.hover
          { contents := HoverContents.markup
              { kind := "markdown"
                value :=
                  "**Mock Hover Information**\n\nThis is mock hover content for testing purposes." }
            range := Option.some
              { start := { line := 0, character := 4294967295 }
                end_ := { line := 0, character := 9 } } })]
    ∧ (9 : Nat) ≠ 4294967295 + 10 :=
  ⟨rfl, by decide⟩

/-- C7 (amended): every `textDocument/hover` reply carries a range that
starts exactly at the requested position and ends on the same line at
character `(start.character + 10) mod 2^32` — the Go unsigned 32-bit
addition; whenever `start.character + 10` stays below `2^32` (every
character up to `2^32 - 11`) this is exactly `start.character + 10`. -/
theorem C7_hover_range_mod_uint32 (docs : Store) (uri : String)
    (pos : Position) (id : Int) (sres : Option String) :
    (∃ hv : Hover,
      (handleHover docs (Params.hoverParams uri pos) id sres).2.filter
          isReplyEffect = [Effect.reply id (ReplyResult.hover hv)]
      ∧ hv.range = Option.some
          { start := pos
            end_ := { line := pos.line
                      character := (pos.character + 10) % uint32Mod } })
    ∧ (pos.character + 10 < uint32Mod →
        (pos.character + 10) % uint32Mod = pos.character + 10) := by
  constructor
  · refine ⟨{ contents := HoverContents.markup
                { kind := "markdown"
                  value :=
                    "**Mock Hover Information**\n\nThis is mock hover content for testing purposes." }
              range := Option.some
                { start := pos
                  end_ := { line := pos.line
                            character := (pos.character + 10) % uint32Mod } } },
      ?_, rfl⟩
    cases sres with
    | none => rfl
    | some e => rfl
  · intro hlt
    exact Nat.mod_eq_of_lt hlt

/-- Witness for C7: at the requested character 7 no wrap occurs, so the
hover range ends at character 17 = 7 + 10. -/
theorem C7_hover_range_mod_uint32_witness :
    (7 + 10 < uint32Mod) ∧ (7 + 10) % uint32Mod = 7 + 10 :=
  ⟨by decide,
    (C7_hover_range_mod_uint32 [] "file:///a.go"
        { line := 2, character := 7 } 3 Option.none).2 (by decide)⟩

theorem foldl_applyContentChange_notify (uri : String)
    (changes : List ContentChange) (acc : TextDocumentItem × List Effect) :
    ((changes.foldl (applyContentChange uri) acc).2).filter isNotifyEffect
      = acc.2.filter isNotifyEffect := by
  induction changes generalizing acc with
  | nil => rfl
  | cons c rest ih =>
      cases c with
      | RangeChange r t =>
          rw [List.foldl_cons, ih]
          simp [applyContentChange, List.filter_append, isNotifyEffect]
      | WholeDocumentChange t =>
          rw [List.foldl_cons, ih]
          simp [applyContentChange, List.filter_append, isNotifyEffect]

/-- C8: every `didOpen`, and every `didChange` whose URI is in the store,
attempts exactly one `textDocument/publishDiagnostics` notification for that
URI, whose payload is exactly the two fixed diagnostics: a Warning at
(1,0)–(1,10) saying "This is a mock warning" and an Information at
(5,15)–(5,25) saying "This is mock info", both with source `mock-lsp`. -/
theorem C8_diagnostics_push (docs : Store) (td : TextDocumentItem)
    (uri : String) (version : Int) (changes : List ContentChange)
    (sres : Option String) (d : TextDocumentItem)
    (h : storeLookup docs uri = Option.some d) :
    (handleTextDocumentDidOpen docs (Params.didOpenParams td) sres).2.filter
        isNotifyEffect
      = [Effect.notify "textDocument/publishDiagnostics"
          { uri := td.uri, diagnostics := mockDiagnostics }]
    ∧ (handleTextDocumentDidChange docs
          (Params.didChangeParams uri version changes) sres).2.filter
        isNotifyEffect
      = [Effect.notify "textDocument/publishDiagnostics"
          { uri := uri, diagnostics := mockDiagnostics }]
    ∧ mockDiagnostics
      = [ { range := { start := { line := 1, character := 0 }
                       end_ := { line := 1, character := 10 } }
            severity := Option.some 2
            message := "This is a mock warning"
            source := "mock-lsp" }
        , { range := { start := { line := 5, character := 15 }
                       end_ := { line := 5, character := 25 } }
            severity := Option.some 3
            message := "This is mock info"
            source := "mock-lsp" } ] := by
  refine ⟨?_, ?_, rfl⟩
  · cases sres with
    | none => rfl
    | some e => rfl
  · simp only [handleTextDocumentDidChange]
    rw [h]
    dsimp only
    rw [List.filter_append, foldl_applyContentChange_notify]
    cases sres with
    | none => rfl
    | some e => rfl

/-- Witness for C8: a `didChange` with an empty change list on a one-entry
store pushes the mock diagnostics for its URI. -/
theorem C8_diagnostics_push_witness :
    storeLookup [("file:///a.go", sampleDoc)] "file:///a.go"
        = Option.some sampleDoc
    ∧ (handleTextDocumentDidChange [("file:///a.go", sampleDoc)]
          (Params.didChangeParams "file:///a.go" 2 []) Option.none).2.filter
        isNotifyEffect
      = [Effect.notify "textDocument/publishDiagnostics"
          { uri := "file:///a.go", diagnostics := mockDiagnostics }] :=
  ⟨rfl,
    (C8_diagnostics_push [("file:///a.go", sampleDoc)] sampleDoc
      "file:///a.go" 2 [] Option.none sampleDoc rfl).2.1⟩

/-- C10: each document-synchronization notification for a URI `u` leaves the
entry of every other URI `v` untouched — `didOpen` and `didChange` only
touch their own key, `didSave` never touches the store, `didClose` only
deletes its own key — so `v` keeps exactly the document (text, version,
languageId) it had before and stays present. -/
theorem C10_other_entries_unchanged (docs : Store) (td : TextDocumentItem)
    (uri : String) (version : Int) (changes : List ContentChange)
    (sres : Option String) (v : String) :
    (v ≠ td.uri →
      storeLookup (handleTextDocumentDidOpen docs (Params.didOpenParams td)
          sres).1 v = storeLookup docs v)
    ∧ (v ≠ uri →
      storeLookup (handleTextDocumentDidChange docs
          (Params.didChangeParams uri version changes) sres).1 v
        = storeLookup docs v)
    ∧ storeLookup (handleTextDocumentDidSave docs
          (Params.didSaveParams uri)).1 v = storeLookup docs v
    ∧ (v ≠ uri →
      storeLookup (handleTextDocumentDidClose docs
          (Params.didCloseParams uri)).1 v = storeLookup docs v) := by
  refine ⟨?_, ?_, rfl, ?_⟩
  · intro hv
    exact storeLookup_insert_ne docs td.uri v td hv
  · intro hv
    simp only [handleTextDocumentDidChange]
    cases hl : storeLookup docs uri with
    | some dd =>
        dsimp only
        exact storeLookup_update_ne docs uri v _ hv
    | none => rfl
  · intro hv
    exact storeLookup_erase_ne docs v uri hv

/-- Witness for C10: the entry for `file:///b.go` survives a `didOpen`, a
`didChange` and a `didClose` that all target `file:///a.go`. -/
theorem C10_other_entries_unchanged_witness :
    (("file:///b.go" : String) ≠ sampleDoc2.uri
      ∧ storeLookup (handleTextDocumentDidOpen [("file:///b.go", sampleDoc)]
          (Params.didOpenParams sampleDoc2) Option.none).1 "file:///b.go"
        = storeLookup [("file:///b.go", sampleDoc)] "file:///b.go")
    ∧ (("file:///b.go" : String) ≠ "file:///a.go"
      ∧ storeLookup (handleTextDocumentDidChange [("file:///b.go", sampleDoc)]
          (Params.didChangeParams "file:///a.go" 3
            [ContentChange.WholeDocumentChange "other"]) Option.none).1
          "file:///b.go"
        = storeLookup [("file:///b.go", sampleDoc)] "file:///b.go")
    ∧ storeLookup (handleTextDocumentDidClose [("file:///b.go", sampleDoc)]
          (Params.didCloseParams "file:///a.go")).1 "file:///b.go"
        = storeLookup [("file:///b.go", sampleDoc)] "file:///b.go" :=
  ⟨⟨by decide,
    (C10_other_entries_unchanged [("file:///b.go", sampleDoc)] sampleDoc2
        "file:///a.go" 3 [ContentChange.WholeDocumentChange "other"]
        Option.none "file:///b.go").1 (by decide)⟩,
   ⟨by decide,
    (C10_other_entries_unchanged [("file:///b.go", sampleDoc)] sampleDoc2
        "file:///a.go" 3 [ContentChange.WholeDocumentChange "other"]
        Option.none "file:///b.go").2.1 (by decide)⟩,
   (C10_other_entries_unchanged [("file:///b.go", sampleDoc)] sampleDoc2
       "file:///a.go" 3 [ContentChange.WholeDocumentChange "other"]
       Option.none "file:///b.go").2.2.2 (by decide)⟩

end MockLsp
